import Mathlib

/-!
Verification of `toolchain/aliases_map_maker.py` (open62541-nodeset-exporter).

The script reads a CSV registry of node identifiers (rows of three positional
fields: alias, nodeId, category), prints a diagnostic preview, and emits a
generated header containing two constant lookup tables (`data_type_aliases`
and `reference_type_aliases`) inside a derived include guard and namespace.

Shallow embedding choices:
* Python strings are embedded as `List Char` (`Str`), so Python's `str.split`,
  `str.upper`, `str.lower`, `str.replace` are embedded as executable list
  functions (`pySplit`, `map Char.toUpper`, ...).  `upper`/`lower` are
  modelled on the ASCII range, which `Char.toUpper`/`Char.toLower` implement
  exactly as Python does for ASCII input.
* The CSV source is embedded, post `csv.reader`, as a `List (List Str)`:
  one field list per physical row; a blank line is the empty field list `[]`
  (which `csv.DictReader` skips).
* `csv.DictReader` with imposed fieldnames `['Alias','NodeId','TypeOfData']`
  fills missing trailing fields with `restval = None`; hence record fields are
  `Option Str` and `%s`-rendering of `None` produces the text `None`.
* File I/O: a source that cannot be opened is `none`; the program aborts
  before touching the destination, embedded by the explicit state/trace
  function `run` below.
-/

namespace AliasMapMaker

/-- Python strings, embedded as their character lists. -/
abbrev Str := List Char

/-- Python `s.split(sep)` for a one-character separator: splits at every
occurrence, keeping empty pieces; `"".split(sep) == ['']`. -/
def pySplit (sep : Char) : Str → List Str
  | [] => [[]]
  | c :: cs =>
    match pySplit sep cs with
    | [] => [[]]
    | w :: ws => if c = sep then [] :: w :: ws else (c :: w) :: ws

/-- `output_filename = str(path).split('/')[-1:][0].split('.')[0]`
(line 28 of the script): last `/`-separated component of the path string,
then the part before the first `.`. -/
def output_filename (path : Str) : Str :=
  (pySplit '.' ((pySplit '/' path).getLastD [])).headD []

/-- One parsed CSV record, as produced by `csv.DictReader` with the imposed
fieldnames `['Alias', 'NodeId', 'TypeOfData']`.  A field a short row does not
supply is `none` (DictReader's `restval`). -/
structure AliasRecord where
  «alias» : Option Str
  nodeId : Option Str
  typeOfData : Option Str
deriving DecidableEq

/-- How `csv.DictReader` turns one non-blank row (field list) into a record:
fields are taken positionally; missing trailing fields become `none`; extra
fields land under `restkey` and are never consulted by the script. -/
def dictReaderRow (fields : List Str) : AliasRecord :=
  { «alias» := fields.get? 0, nodeId := fields.get? 1, typeOfData := fields.get? 2 }

/-- Iterating the `csv.DictReader`: blank rows (`row == []`) are skipped,
every other row yields a record.  Each of the script's three passes over the
file re-reads exactly this sequence (the file is `seek(0)`-rewound between
passes). -/
def parseRows : List (List Str) → List AliasRecord
  | [] => []
  | r :: rs => if r = [] then parseRows rs else dictReaderRow r :: parseRows rs

/-- `open(...)` on the source: a missing/unreadable source (`none`) raises an
OSError, embedded as `Except.error`; otherwise every row list parses without
error (DictReader performs no row validation). -/
def parseSource : Option (List (List Str)) → Except Str (List AliasRecord)
  | none => Except.error ("OSError".toList)
  | some rows => Except.ok (parseRows rows)

/-- The category literal `'DataType'` of the script's membership tests. -/
def dataTypeTag : Str := "DataType".toList

/-- The category literal `'ReferenceType'` of the script's membership tests. -/
def referenceTypeTag : Str := "ReferenceType".toList

/-- Python `'%s' % v` for an optional field: `None` renders as `None`. -/
def pyStr : Option Str → Str
  | none => "None".toList
  | some s => s

/-- The membership test `row['TypeOfData'] in ['DataType', 'ReferenceType']`
guarding the diagnostic preview (line 34). -/
def isShown (r : AliasRecord) : Bool :=
  decide (r.typeOfData = some dataTypeTag)
    || decide (r.typeOfData = some referenceTypeTag)

/-- The console line printed by the preview for one shown record:
`print('Alias: ', A, ', NodeId: i=', N, ', TypeOfData: ', T)` joins its
arguments with single spaces. -/
def previewLine (r : AliasRecord) : Str :=
  "Alias:  ".toList ++ pyStr r.«alias»
    ++ " , NodeId: i= ".toList ++ pyStr r.nodeId
    ++ " , TypeOfData:  ".toList ++ pyStr r.typeOfData

/-- The diagnostic preview pass (lines 33-35): one console line per record
whose category is `DataType` or `ReferenceType`; other records print
nothing. -/
def previewLines : List AliasRecord → List Str
  | [] => []
  | r :: rs => if isShown r then previewLine r :: previewLines rs else previewLines rs

/-- One rendered table entry:
`"\t{%s, \"%s\"}, // %s" % (row['NodeId'], row['Alias'], row['TypeOfData'])`. -/
def entryLine (r : AliasRecord) : Str :=
  "\t\x7b".toList ++ pyStr r.nodeId
    ++ ", \"".toList ++ pyStr r.«alias»
    ++ "\"\x7d, // ".toList ++ pyStr r.typeOfData

/-- The `data_type_aliases` rendering loop (lines 69-72): one entry line per
record whose `TypeOfData` is exactly `DataType`, in pass order. -/
def data_type_aliases_lines : List AliasRecord → List Str
  | [] => []
  | r :: rs =>
    if decide (r.typeOfData = some dataTypeTag)
    then entryLine r :: data_type_aliases_lines rs
    else data_type_aliases_lines rs

/-- The `reference_type_aliases` rendering loop (lines 80-83). -/
def reference_type_aliases_lines : List AliasRecord → List Str
  | [] => []
  | r :: rs =>
    if decide (r.typeOfData = some referenceTypeTag)
    then entryLine r :: reference_type_aliases_lines rs
    else reference_type_aliases_lines rs

/-- The `dataTypeTable` of the generated artifact, as the (nodeId, alias)
pairs selected by the `data_type_aliases` loop, in pass order. -/
def dataTypeTable : List AliasRecord → List (Option Str × Option Str)
  | [] => []
  | r :: rs =>
    if decide (r.typeOfData = some dataTypeTag)
    then (r.nodeId, r.«alias») :: dataTypeTable rs
    else dataTypeTable rs

/-- The `referenceTypeTable` of the generated artifact. -/
def referenceTypeTable : List AliasRecord → List (Option Str × Option Str)
  | [] => []
  | r :: rs =>
    if decide (r.typeOfData = some referenceTypeTag)
    then (r.nodeId, r.«alias») :: referenceTypeTable rs
    else referenceTypeTable rs

/-- The include-guard macro as it appears after `#ifndef`, `#define` and
`#endif //` in the emitted text: prefix, upper-cased base name, and the
literal suffix `_H`. -/
def include_guard (base : Str) : Str :=
  "NODESETEXPORTER_COMMON_".toList ++ base.map Char.toUpper ++ "_H".toList

/-- `output_filename.replace('_', '').lower()`: underscores deleted, then
lower-cased. -/
def ns_suffix (base : Str) : Str :=
  (base.filter (fun c => decide (c ≠ '_'))).map Char.toLower

/-- The full namespace name emitted after `namespace `:
`nodesetexporter::` followed by the transformed base name. -/
def namespace_name (base : Str) : Str :=
  "nodesetexporter::".toList ++ ns_suffix base

/-- The lines of the first `printh` block (banner, guard, includes, namespace
opener, doc comment, `data_type_aliases` opener), byte-faithful to the
triple-quoted literal including its trailing spaces. -/
def headChunk (base : Str) : List Str :=
  [ "//".toList,
    "// This Source Code Form is subject to the terms of the Mozilla Public".toList,
    "// License, v. 2.0. If a copy of the MPL was not distributed with this".toList,
    "// file, You can obtain one at http://mozilla.org/MPL/2.0/.".toList,
    "//".toList,
    "//  Copyright 2024 (c) Aleksander Rozhkov <aleksprog@hotmail.com>".toList,
    "//  ".toList,
    "".toList,
    "//********************************************".toList,
    "//* Auto Generation - Do Not Manually Change *".toList,
    "//********************************************".toList,
    "".toList,
    "#ifndef ".toList ++ include_guard base,
    "#define ".toList ++ include_guard base,
    "".toList,
    "#include <map>".toList,
    "#include <string>".toList,
    "".toList,
    "namespace ".toList ++ namespace_name base,
    "\x7b".toList,
    "/**".toList,
    " * @brief Associative container with aliased data types  ".toList,
    " */".toList,
    "const std::map<std::uint32_t, std::string> data_type_aliases\x7b".toList ]

/-- The lines of the middle `printh` block, between the two tables. -/
def midChunk : List Str :=
  [ "\x7d;".toList,
    "".toList,
    "/**".toList,
    " * @brief Associative container with alias types of references  ".toList,
    " */".toList,
    "const std::map<std::uint32_t, std::string> reference_type_aliases\x7b".toList ]

/-- The lines of the final `printh` block (table closer, namespace closer,
guard footer). -/
def tailChunk (base : Str) : List Str :=
  [ "\x7d;".toList,
    "\x7d // namespace ".toList ++ namespace_name base,
    "#endif // ".toList ++ include_guard base ]

/-- All lines of the generated artifact, in emission order, for a given
post-`csv.reader` row list and destination path string. -/
def outputLines (rows : List (List Str)) (path : Str) : List Str :=
  headChunk (output_filename path)
    ++ data_type_aliases_lines (parseRows rows)
    ++ midChunk
    ++ reference_type_aliases_lines (parseRows rows)
    ++ tailChunk (output_filename path)

/-- The exact bytes written to the destination: every `printh` call writes its
string followed by one newline, so the artifact is the lines each terminated
by `'\n'`. -/
def outputText (rows : List (List Str)) (path : Str) : Str :=
  ((outputLines rows path).map (fun l => l ++ ['\n'])).flatten

/-- The observable I/O events of one run, in order: opening the source for
reading, printing one preview line, opening the destination for (truncating)
writing, writing the artifact text. -/
inductive Ev where
  | openSrc : Ev
  | preview : Str → Ev
  | openDest : Ev
  | writeArtifact : Ev
deriving DecidableEq

/-- The file system as the script sees it: the source rows (`none` when the
source path does not exist or is unreadable) and the destination's current
content (`none` when the destination file does not exist yet). -/
structure FS where
  src : Option (List (List Str))
  dest : Option Str
deriving DecidableEq

/-- One run of the script on a file system: the nested `with open` blocks
open the source first; an unreadable source raises before the destination is
ever opened, leaving the file system unchanged.  Otherwise the preview pass
runs, then the destination is opened with mode `"wt"` (truncating) and the
artifact is written.  Returns the final file system and the event trace. -/
def run (fs : FS) (path : Str) : FS × List Ev :=
  match fs.src with
  | none => (fs, [])
  | some rows =>
    ({ src := some rows, dest := some (outputText rows path) },
      Ev.openSrc :: ((previewLines (parseRows rows)).map Ev.preview
        ++ [Ev.openDest, Ev.writeArtifact]))

/-- Spec-side comparator (§3 invariant, worded from the spec): `dataTypeTable`
is exactly the records whose category is `DataType`, in source order, as
(nodeId, alias) pairs. -/
def specDataTypeTable (records : List AliasRecord) : List (Option Str × Option Str) :=
  (records.filter (fun r => decide (r.typeOfData = some dataTypeTag))).map
    (fun r => (r.nodeId, r.«alias»))

/-- Spec-side comparator: `referenceTypeTable` analogously for
`ReferenceType`. -/
def specReferenceTypeTable (records : List AliasRecord) : List (Option Str × Option Str) :=
  (records.filter (fun r => decide (r.typeOfData = some referenceTypeTag))).map
    (fun r => (r.nodeId, r.«alias»))

/-- Spec-side comparator for the first-dot truncation of the base name:
the filename component with everything from the first `.` on removed. -/
def specBaseName (path : Str) : Str :=
  ((pySplit '/' path).getLastD []).takeWhile (fun c => decide (c ≠ '.'))

theorem data_type_aliases_lines_eq (rs : List AliasRecord) :
    data_type_aliases_lines rs
      = (rs.filter (fun r => decide (r.typeOfData = some dataTypeTag))).map entryLine := by
  induction rs with
  | nil => rfl
  | cons r rs ih =>
    by_cases h : r.typeOfData = some dataTypeTag <;>
      simp [data_type_aliases_lines, List.filter_cons, h, ih]

theorem reference_type_aliases_lines_eq (rs : List AliasRecord) :
    reference_type_aliases_lines rs
      = (rs.filter (fun r => decide (r.typeOfData = some referenceTypeTag))).map entryLine := by
  induction rs with
  | nil => rfl
  | cons r rs ih =>
    by_cases h : r.typeOfData = some referenceTypeTag <;>
      simp [reference_type_aliases_lines, List.filter_cons, h, ih]

theorem dataTypeTable_eq (rs : List AliasRecord) :
    dataTypeTable rs = specDataTypeTable rs := by
  induction rs with
  | nil => rfl
  | cons r rs ih =>
    by_cases h : r.typeOfData = some dataTypeTag <;>
      simp [dataTypeTable, specDataTypeTable, List.filter_cons, h, ih]

theorem referenceTypeTable_eq (rs : List AliasRecord) :
    referenceTypeTable rs = specReferenceTypeTable rs := by
  induction rs with
  | nil => rfl
  | cons r rs ih =>
    by_cases h : r.typeOfData = some referenceTypeTag <;>
      simp [referenceTypeTable, specReferenceTypeTable, List.filter_cons, h, ih]

theorem previewLines_eq (rs : List AliasRecord) :
    previewLines rs = (rs.filter isShown).map previewLine := by
  induction rs with
  | nil => rfl
  | cons r rs ih =>
    by_cases h : isShown r = true <;>
      simp [previewLines, List.filter_cons, h, ih]

theorem parseRows_eq_map (rows : List (List Str)) (h : ∀ r ∈ rows, r ≠ []) :
    parseRows rows = rows.map dictReaderRow := by
  induction rows with
  | nil => rfl
  | cons r rs ih =>
    have hr : ¬(r = []) := h r (List.mem_cons_self r rs)
    simp [parseRows, hr, ih (fun x hx => h x (List.mem_cons_of_mem r hx))]

theorem pySplit_ne_nil (sep : Char) (s : Str) : pySplit sep s ≠ [] := by
  cases s with
  | nil => simp [pySplit]
  | cons c cs =>
    unfold pySplit
    cases h : pySplit sep cs with
    | nil => simp
    | cons w ws => by_cases hc : c = sep <;> simp [hc]

theorem pySplit_headD (sep : Char) (s : Str) :
    (pySplit sep s).headD [] = s.takeWhile (fun c => decide (c ≠ sep)) := by
  induction s with
  | nil => rfl
  | cons c cs ih =>
    unfold pySplit
    cases h : pySplit sep cs with
    | nil => exact absurd h (pySplit_ne_nil sep cs)
    | cons w ws =>
      rw [h] at ih
      rw [List.headD_cons] at ih
      by_cases hc : c = sep
      · subst hc
        simp [List.takeWhile_cons]
      · simp [hc, List.takeWhile_cons, ih]

theorem toLower_eq_underscore {c : Char} (h : c.toLower = '_') : c = '_' := by
  simp only [Char.toLower] at h
  split at h
  · rename_i hn
    exfalso
    have hv : (c.toNat + 32).isValidChar := Or.inl (by omega)
    have ht : (Char.ofNat (c.toNat + 32)).toNat = c.toNat + 32 := by
      rw [Char.ofNat, dif_pos hv]
      rfl
    have h95 : ('_').toNat = 95 := rfl
    have := congrArg Char.toNat h
    rw [ht, h95] at this
    omega
  · exact h

/-- The script removes underscores first and lower-cases second; the spec
words it as lower-casing with underscores removed.  The two agree, because
lower-casing sends no character to `'_'` and fixes `'_'`. -/
theorem ns_suffix_eq_lower_then_filter (base : Str) :
    ns_suffix base = (base.map Char.toLower).filter (fun c => decide (c ≠ '_')) := by
  induction base with
  | nil => rfl
  | cons c cs ih =>
    by_cases hc : c = '_'
    · subst hc
      have hl : Char.toLower '_' = '_' := rfl
      simp [ns_suffix, List.filter_cons, hl] at ih ⊢
      exact ih
    · have hc2 : ¬(Char.toLower c = '_') := fun h => hc (toLower_eq_underscore h)
      simp [ns_suffix, List.filter_cons, hc, hc2] at ih ⊢
      exact ih

theorem outputLines_nil (p : Str) :
    outputLines [] p
      = headChunk (output_filename p) ++ midChunk ++ tailChunk (output_filename p) := by
  simp [outputLines, parseRows, data_type_aliases_lines, reference_type_aliases_lines]

/-- C1: for every record set parsed from the source, the rendered
`data_type_aliases` table contains exactly the records whose category is
`DataType` and `reference_type_aliases` exactly those whose category is
`ReferenceType`, each in source row order; the tables are the in-order
category filters of the input, so no record of any other category
contributes an entry (or an entry line) to either table. -/
theorem C1_tables_exact (records : List AliasRecord) :
    dataTypeTable records = specDataTypeTable records
    ∧ referenceTypeTable records = specReferenceTypeTable records
    ∧ data_type_aliases_lines records
        = (records.filter (fun r => decide (r.typeOfData = some dataTypeTag))).map entryLine
    ∧ reference_type_aliases_lines records
        = (records.filter (fun r => decide (r.typeOfData = some referenceTypeTag))).map entryLine :=
  ⟨dataTypeTable_eq records, referenceTypeTable_eq records,
    data_type_aliases_lines_eq records, reference_type_aliases_lines_eq records⟩

/-- C2 counterexample: for output path `DatatypeAliases.h` the include-guard
macro is `NODESETEXPORTER_COMMON_DATATYPEALIASES_H`, not the claimed
`NODESETEXPORTER_COMMON_DATATYPEALIASES`: the script appends the literal
suffix `_H` after the upper-cased base name, and the artifact contains the
`_H` guard line but not the claimed one. -/
theorem C2_guard_cex :
    include_guard (output_filename ("DatatypeAliases.h".toList))
        ≠ "NODESETEXPORTER_COMMON_DATATYPEALIASES".toList
    ∧ ("#ifndef NODESETEXPORTER_COMMON_DATATYPEALIASES_H".toList)
        ∈ outputLines [] ("DatatypeAliases.h".toList)
    ∧ ("#ifndef NODESETEXPORTER_COMMON_DATATYPEALIASES".toList)
        ∉ outputLines [] ("DatatypeAliases.h".toList) :=
  ⟨by decide, by decide, by decide⟩

/-- C2 amended: for every record set and output path, the include-guard name
is the fixed prefix `NODESETEXPORTER_COMMON_`, then the upper-cased base
name, then the fixed suffix `_H`; the artifact's `#ifndef` and `#define`
lines carry exactly this macro, and `DatatypeAliases.h` yields
`NODESETEXPORTER_COMMON_DATATYPEALIASES_H`. -/
theorem C2_guard_amended (rows : List (List Str)) (path : Str) :
    ("#ifndef ".toList ++ ("NODESETEXPORTER_COMMON_".toList
        ++ (output_filename path).map Char.toUpper ++ "_H".toList))
      ∈ outputLines rows path
    ∧ ("#define ".toList ++ ("NODESETEXPORTER_COMMON_".toList
        ++ (output_filename path).map Char.toUpper ++ "_H".toList))
      ∈ outputLines rows path
    ∧ include_guard (output_filename ("DatatypeAliases.h".toList))
        = "NODESETEXPORTER_COMMON_DATATYPEALIASES_H".toList := by
  refine ⟨?_, ?_, by decide⟩ <;>
    simp [outputLines, headChunk, include_guard]

/-- C3 counterexample: for a filename with more than one dot the base name
keeps only the part before the FIRST dot, not everything before the final
dot: `Data.Type.h` yields `Data`, not the claimed `Data.Type`. -/
theorem C3_base_name_cex :
    output_filename ("Data.Type.h".toList) = "Data".toList
    ∧ output_filename ("Data.Type.h".toList) ≠ "Data.Type".toList :=
  ⟨by decide, by decide⟩

/-- C3 amended: for every output path, the base name equals the filename
component of the path truncated at the first dot (everything from the first
dot on is removed, so a filename containing more than one dot keeps only the
part before the first dot). -/
theorem C3_base_name_amended (path : Str) :
    output_filename path = specBaseName path := by
  unfold output_filename specBaseName
  exact pySplit_headD '.' ((pySplit '/' path).getLastD [])

/-- C4: for every record set and output path, the namespace name is the
fixed prefix `nodesetexporter::` followed by the base name lower-cased with
all underscore characters removed; the artifact's namespace opener and
closer lines carry exactly this name, and `Some_Output.h` yields
`nodesetexporter::someoutput`. -/
theorem C4_namespace (rows : List (List Str)) (path : Str) :
    ("namespace ".toList ++ ("nodesetexporter::".toList
        ++ ((output_filename path).map Char.toLower).filter (fun c => decide (c ≠ '_'))))
      ∈ outputLines rows path
    ∧ ("\x7d // namespace ".toList ++ ("nodesetexporter::".toList
        ++ ((output_filename path).map Char.toLower).filter (fun c => decide (c ≠ '_'))))
      ∈ outputLines rows path
    ∧ namespace_name (output_filename ("Some_Output.h".toList))
        = "nodesetexporter::someoutput".toList := by
  refine ⟨?_, ?_, by decide⟩ <;>
    simp [outputLines, headChunk, tailChunk, namespace_name,
      ns_suffix_eq_lower_then_filter]

/-- C5: the generated artifact text is a function of the source rows and the
output path alone — the rendering consults no clock, environment or other
state — so two runs on identical input content and identical output path
produce byte-identical artifacts. -/
theorem C5_deterministic (rows₁ rows₂ : List (List Str)) (path₁ path₂ : Str)
    (hrows : rows₁ = rows₂) (hpath : path₁ = path₂) :
    outputText rows₁ path₁ = outputText rows₂ path₂ := by
  rw [hrows, hpath]

/-- C5 witness: two runs on the same one-row source and the default output
path produce the same bytes. -/
theorem C5_deterministic_witness :
    outputText [["Boolean".toList, "1".toList, "DataType".toList]]
        ("DatatypeAliases.h".toList)
      = outputText [["Boolean".toList, "1".toList, "DataType".toList]]
        ("DatatypeAliases.h".toList) :=
  C5_deterministic _ _ _ _ rfl rfl

/-- C6 counterexample: a record of category `Other` is dropped from both
tables, but the diagnostic preview prints NO line for it either — the
preview loop is guarded by the same
`in ['DataType', 'ReferenceType']` test as the tables — contradicting the
claim that the record is still visible in the preview. -/
theorem C6_other_invisible_cex :
    previewLines [dictReaderRow ["SomeFolder".toList, "61".toList, "Other".toList]] = []
    ∧ dataTypeTable [dictReaderRow ["SomeFolder".toList, "61".toList, "Other".toList]] = []
    ∧ referenceTypeTable
        [dictReaderRow ["SomeFolder".toList, "61".toList, "Other".toList]] = [] :=
  ⟨by decide, by decide, by decide⟩

/-- C6 amended: records whose category is neither `DataType` nor
`ReferenceType` are dropped from both output tables and are also omitted
from the diagnostic preview: the preview emits exactly one line per
`DataType`/`ReferenceType` record, in source order, and the tables are the
in-order category filters of the input. -/
theorem C6_other_dropped_amended (records : List AliasRecord) :
    previewLines records = (records.filter isShown).map previewLine
    ∧ dataTypeTable records = specDataTypeTable records
    ∧ referenceTypeTable records = specReferenceTypeTable records :=
  ⟨previewLines_eq records, dataTypeTable_eq records, referenceTypeTable_eq records⟩

/-- C7: parsing fails with a fatal I/O error exactly when the source cannot
be opened; it never fails on row content — every row list parses to a
record list, and a row with missing fields yields a record whose absent
fields are `none` (no row-level validation, no reported error). -/
theorem C7_parse_error_handling :
    (∃ e, parseSource none = Except.error e)
    ∧ (∀ rows, parseSource (some rows) = Except.ok (parseRows rows))
    ∧ (∀ fields, fields.length < 3 → (dictReaderRow fields).typeOfData = none)
    ∧ (∀ fields, fields.length < 2 → (dictReaderRow fields).nodeId = none) := by
  refine ⟨⟨_, rfl⟩, fun rows => rfl, ?_, ?_⟩
  · intro fields h
    simp only [dictReaderRow]
    exact List.get?_eq_none.mpr (by omega)
  · intro fields h
    simp only [dictReaderRow]
    exact List.get?_eq_none.mpr (by omega)

/-- C7 witness: a one-field row parses without error into a record with
absent nodeId and category fields. -/
theorem C7_parse_error_handling_witness :
    parseSource (some [["OnlyAlias".toList]])
        = Except.ok (parseRows [["OnlyAlias".toList]])
    ∧ (dictReaderRow ["OnlyAlias".toList]).typeOfData = none
    ∧ (dictReaderRow ["OnlyAlias".toList]).nodeId = none :=
  ⟨C7_parse_error_handling.2.1 [["OnlyAlias".toList]],
   C7_parse_error_handling.2.2.1 (["OnlyAlias".toList]) (by decide),
   C7_parse_error_handling.2.2.2 (["OnlyAlias".toList]) (by decide)⟩

/-- C8 counterexample: a source consisting of one blank row (zero fields)
yields zero records, not one — `csv.DictReader` silently skips blank rows —
so "a source of n rows always yields n records" fails at n = 1. -/
theorem C8_blank_row_cex :
    parseRows [([] : List Str)] = []
    ∧ (parseRows [([] : List Str)]).length ≠ 1 :=
  ⟨by decide, by decide⟩

/-- C8 amended: every non-blank row, including the first, is interpreted
positionally as (alias, nodeId, category) with the imposed field names: a
source of n non-blank rows yields exactly the n records obtained row by row
(blank rows are skipped), and in particular a physically present header row
is parsed as an ordinary bogus record rather than skipped. -/
theorem C8_positional_amended (rows : List (List Str)) (h : ∀ r ∈ rows, r ≠ []) :
    parseRows rows = rows.map dictReaderRow :=
  parseRows_eq_map rows h

/-- C8 witness: a two-row source whose first row is a physically present
header row parses to two ordinary records, the header row becoming a bogus
record. -/
theorem C8_positional_amended_witness :
    parseRows [["Alias".toList, "NodeId".toList, "TypeOfData".toList],
               ["Boolean".toList, "1".toList, "DataType".toList]]
      = [dictReaderRow ["Alias".toList, "NodeId".toList, "TypeOfData".toList],
         dictReaderRow ["Boolean".toList, "1".toList, "DataType".toList]] := by
  rw [C8_positional_amended _ (by decide)]
  rfl

/-- C9: for an empty source (zero rows) the generated artifact still carries
the auto-generation banner, the include-guard pair, both includes, the
namespace block, and both constant table declarations, each immediately
followed by its closing line — i.e. emitted with zero entries. -/
theorem C9_empty_source (path : Str) :
    ("//* Auto Generation - Do Not Manually Change *".toList) ∈ outputLines [] path
    ∧ ("#ifndef ".toList ++ include_guard (output_filename path)) ∈ outputLines [] path
    ∧ ("#define ".toList ++ include_guard (output_filename path)) ∈ outputLines [] path
    ∧ ("#include <map>".toList) ∈ outputLines [] path
    ∧ ("#include <string>".toList) ∈ outputLines [] path
    ∧ ("namespace ".toList ++ namespace_name (output_filename path)) ∈ outputLines [] path
    ∧ ("\x7d // namespace ".toList ++ namespace_name (output_filename path))
        ∈ outputLines [] path
    ∧ ["const std::map<std::uint32_t, std::string> data_type_aliases\x7b".toList,
       "\x7d;".toList] <:+: outputLines [] path
    ∧ ["const std::map<std::uint32_t, std::string> reference_type_aliases\x7b".toList,
       "\x7d;".toList] <:+: outputLines [] path
    ∧ ("#endif // ".toList ++ include_guard (output_filename path)) ∈ outputLines [] path := by
  rw [outputLines_nil]
  refine ⟨by simp [headChunk, midChunk, tailChunk],
    by simp [headChunk, midChunk, tailChunk],
    by simp [headChunk, midChunk, tailChunk],
    by simp [headChunk, midChunk, tailChunk],
    by simp [headChunk, midChunk, tailChunk],
    by simp [headChunk, midChunk, tailChunk],
    by simp [headChunk, midChunk, tailChunk], ?_, ?_,
    by simp [headChunk, midChunk, tailChunk]⟩
  · exact ⟨(headChunk (output_filename path)).take 23,
      midChunk.drop 1 ++ tailChunk (output_filename path), rfl⟩
  · exact ⟨(headChunk (output_filename path)) ++ midChunk.take 5,
      (tailChunk (output_filename path)).drop 1, by simp [headChunk, midChunk, tailChunk]⟩

/-- C10: if opening the source path fails, the destination artifact is never
opened and its prior content is left unchanged; when the source does open,
the destination is opened only after the source has been opened and the
whole preview pass has run, and only then is the artifact written. -/
theorem C10_dest_after_source (fs : FS) (path : Str) :
    (fs.src = none → (run fs path).1 = fs ∧ Ev.openDest ∉ (run fs path).2)
    ∧ (∀ rows, fs.src = some rows →
        (run fs path).2
          = Ev.openSrc :: ((previewLines (parseRows rows)).map Ev.preview
              ++ [Ev.openDest, Ev.writeArtifact])
        ∧ (run fs path).1.dest = some (outputText rows path)) := by
  constructor
  · intro h
    simp [run, h]
  · intro rows h
    simp [run, h]

/-- C10 witness: on a file system whose source is unreadable and whose
destination holds prior content, the run leaves everything unchanged and
never opens the destination. -/
theorem C10_dest_after_source_witness :
    (run ⟨none, some ("old content".toList)⟩ ("DatatypeAliases.h".toList)).1
        = ⟨none, some ("old content".toList)⟩
    ∧ Ev.openDest
        ∉ (run ⟨none, some ("old content".toList)⟩ ("DatatypeAliases.h".toList)).2 :=
  (C10_dest_after_source ⟨none, some ("old content".toList)⟩
    ("DatatypeAliases.h".toList)).1 rfl

end AliasMapMaker
